import Mathlib

/-!
# Verification of the parental-control session core (Hepri/parental)

Shallow embedding of the session registry (`internal/session` — the variant
with temporary-password handling, `src/unnamed/part_004`), the Telegram
conversation dispatcher (`internal/bot/bot.go`) and the command-channel
reconnect loop (`src/unnamed/part_006`).  Machine state that Go keeps in
maps is modelled with association lists; the Windows session backend
(WTS enumeration, logoff, password set) is modelled as an explicit state
with an injectable failure pattern and a log of the backend calls issued.
-/

set_option autoImplicit false

namespace Parental

/-! ## Association-list helpers (model of Go maps) -/

/-- Lookup in an association list (model of Go map read). -/
def lookupKV {α β : Type} [DecidableEq α] : List (α × β) → α → Option β
  | [], _ => none
  | p :: rest, k => if p.1 = k then some p.2 else lookupKV rest k

/-- Remove a key (model of Go `delete(m, k)`). -/
def eraseKV {α β : Type} [DecidableEq α] : List (α × β) → α → List (α × β)
  | [], _ => []
  | p :: rest, k => if p.1 = k then eraseKV rest k else p :: eraseKV rest k

/-- Overwriting insert (model of Go `m[k] = v`). -/
def setKV {α β : Type} [DecidableEq α] (l : List (α × β)) (k : α) (v : β) :
    List (α × β) :=
  eraseKV l k ++ [(k, v)]

/-! ## Data model (config.ChildAccount, session.ActiveSession) -/

/-- `config.ChildAccount`: a managed account from configuration. -/
structure ChildAccount where
  username : String
  fullName : String
  password : String
deriving DecidableEq

/-- `session.ActiveSession`: one Grant record in the registry. Times and
durations are integers (Go nanoseconds). -/
structure ActiveSession where
  username  : String
  startTime : Int
  duration  : Int
  isActive  : Bool
deriving DecidableEq

/-- WTS connection-state constant `WTSActive = 0`. -/
def WTSActive : Nat := 0

/-- WTS connection-state constant `WTSConnected = 2`. -/
def WTSConnected : Nat := 2

/-- One entry of `WTSEnumerateSessions`. `user = none` models a
`getSessionUsername` failure for that session (the Go code `continue`s). -/
structure WtsSession where
  sessionID : Nat
  user : Option String
  state : Nat
deriving DecidableEq

/-- A backend enforcement call issued by the registry. -/
inductive BCall where
  | logoff (sessionID : Nat)
  | setPassword (username secret : String)
deriving DecidableEq

/-- The session backend: enumeration results, injectable failure pattern
for each primitive, the account-secret store, and the log of issued calls. -/
structure Backend where
  enumOk : Bool
  sessions : List WtsSession
  loginOk : String → Bool
  enumAfterLoginOk : Bool
  sessionsAfterLogin : List WtsSession
  logoffFails : Nat → Bool
  setPwFails : String → Bool
  secrets : List (String × String)
  calls : List BCall

/-- `config.SetUserPassword`: logs the call, then either fails or updates
the stored secret. -/
def Backend.setUserPassword (b : Backend) (u pw : String) : Backend × Bool :=
  let b1 := { b with calls := b.calls ++ [BCall.setPassword u pw] }
  if b1.setPwFails u then (b1, false)
  else ({ b1 with secrets := setKV b1.secrets u pw }, true)

/-- `logoffSessionByID` (WTSLogoffSession): logs the call, then either
fails or removes the live session. -/
def Backend.logoffSession (b : Backend) (id : Nat) : Backend × Bool :=
  let b1 := { b with calls := b.calls ++ [BCall.logoff id] }
  if b1.logoffFails id then (b1, false)
  else ({ b1 with
          sessions := b1.sessions.filter (fun s => decide (s.sessionID ≠ id)) },
        true)

/-- The child-account search loop used by `GrantAccess`, `LockSession`
and `LockAllSessions` (first match wins). -/
def findAccount : List ChildAccount → String → Option ChildAccount
  | [], _ => none
  | a :: rest, u => if a.username = u then some a else findAccount rest u

/-- The session-search loop: first `WTSActive` session owned by `u`
(a username-query failure is skipped). -/
def findSession : List WtsSession → String → Option WtsSession
  | [], _ => none
  | s :: rest, u =>
      if s.state = WTSActive ∧ s.user = some u then some s
      else findSession rest u

/-- The post-login polling search: `WTSActive` or `WTSConnected`. -/
def findEstablished : List WtsSession → String → Option WtsSession
  | [], _ => none
  | s :: rest, u =>
      if (s.state = WTSActive ∨ s.state = WTSConnected) ∧ s.user = some u then
        some s
      else findEstablished rest u

/-- `session.Manager`: configured accounts plus the Grant table. -/
structure Manager where
  childAccounts : List ChildAccount
  activeSessions : List (String × ActiveSession)

/-- Result of a registry operation: new registry, new backend, and the
returned Go `error` (`none` is `nil`). -/
structure OpResult where
  mgr : Manager
  backend : Backend
  res : Option String

/-- Tail of `GrantAccess` once a live session is known to exist: apply the
temporary secret; only on success install the Grant record. -/
def Manager.grantFinish (m : Manager) (b : Backend) (username : String)
    (duration now : Int) : OpResult :=
  if (b.setUserPassword username "123456").2 then
    ⟨{ m with activeSessions := (setKV m.activeSessions username
        ⟨username, now, duration, true⟩) },
     (b.setUserPassword username "123456").1, none⟩
  else ⟨m, (b.setUserPassword username "123456").1,
        some "failed to set temporary password"⟩

/-- `Manager.GrantAccess` (src/unnamed/part_004 lines 94-183).  The 30s
establishment poll is abstracted to one post-login enumeration
(`sessionsAfterLogin`): either the session appears before the deadline
or it does not. -/
def Manager.GrantAccess (m : Manager) (b : Backend) (username : String)
    (duration now : Int) : OpResult :=
  match findAccount m.childAccounts username with
  | none => ⟨m, b, some ("child account " ++ username ++ " not found")⟩
  | some _ =>
    if b.enumOk then
      match findSession b.sessions username with
      | some _ => Manager.grantFinish m b username duration now
      | none =>
        if b.loginOk username then
          if b.enumAfterLoginOk then
            match findEstablished b.sessionsAfterLogin username with
            | some _ =>
                Manager.grantFinish m
                  { b with sessions := b.sessionsAfterLogin } username
                  duration now
            | none =>
                ⟨m, b,
                 some
                   ("failed to establish session for user " ++ username)⟩
          else ⟨m, b, some "failed to get updated sessions"⟩
        else ⟨m, b, some ("failed to log in user " ++ username)⟩
    else ⟨m, b, some "failed to get active sessions"⟩

/-- `Manager.LockSession` (src/unnamed/part_004 lines 185-229): drop the
Grant record unconditionally, then log off the live session if one is
found and restore the configured secret; error if no live session. -/
def Manager.LockSession (m : Manager) (b : Backend) (username : String) :
    OpResult :=
  let m1 := { m with activeSessions := eraseKV m.activeSessions username }
  if b.enumOk then
    match findSession b.sessions username with
    | none =>
        ⟨m1, b, some ("user " ++ username ++ " session not found")⟩
    | some s =>
        let r := b.logoffSession s.sessionID
        if r.2 then
          let configured :=
            match findAccount m.childAccounts username with
            | some acc => acc.password
            | none => ""
          if configured ≠ "" then
            ⟨m1, (r.1.setUserPassword username configured).1, none⟩
          else ⟨m1, r.1, none⟩
        else ⟨m1, r.1, some "WTSLogoffSession failed"⟩
  else ⟨m1, b, some "failed to get active sessions"⟩

/-- Body of the `LockAllSessions` loop for one enumerated session:
log off any active session owned by a child account (failure only
logged) and restore that account's configured secret (failure ignored). -/
def lockAllStep (accs : List ChildAccount) (b : Backend) (s : WtsSession) :
    Backend :=
  if s.state = WTSActive then
    match s.user with
    | none => b
    | some user =>
      match findAccount accs user with
      | none => b
      | some account =>
        let r := b.logoffSession s.sessionID
        if account.password ≠ "" then
          (r.1.setUserPassword user account.password).1
        else r.1
  else b

/-- `Manager.LockAllSessions` (src/unnamed/part_004 lines 231-271):
clear the whole Grant table, then sweep the enumerated sessions. -/
def Manager.LockAllSessions (m : Manager) (b : Backend) : OpResult :=
  let m1 := { m with activeSessions := [] }
  if b.enumOk then
    ⟨m1, b.sessions.foldl (lockAllStep m.childAccounts) b, none⟩
  else ⟨m1, b, some "failed to get active sessions"⟩

/-- `Manager.GetActiveSessions` (src/unnamed/part_004 lines 273-285):
snapshot of the Grant table filtered on the `IsActive` flag only. -/
def Manager.GetActiveSessions (m : Manager) : List (String × ActiveSession) :=
  m.activeSessions.filter (fun p => p.2.isActive)

/-- `Manager.GetExpiredSessions` (src/unnamed/part_004 lines 287-301):
Grants with `now - start ≥ duration`. -/
def Manager.GetExpiredSessions (m : Manager) (now : Int) :
    List ActiveSession :=
  (m.activeSessions.filter
      (fun p => p.2.isActive && decide (now - p.2.startTime ≥ p.2.duration))).map
    (fun p => p.2)

/-! ## Command channel reconnect loop (src/unnamed/part_006, Start /
connectAndRun / runMessageLoop)

One iteration of the `for` loop in `Start` either observes the
cancellation signal at the top of the loop, or runs `connectAndRun`.
`connectAndRun` performs exactly one handshake attempt (`NewBotAPI` +
`GetMe`); it returns an error when the handshake fails or when the
message loop later dies on a closed update channel or a critical error,
and it returns `nil` exactly when the message loop observed the
cancellation signal.  After an error, `Start` waits out the backoff
interval, during which the cancellation signal may fire.  Note the
`MaxReconnectAttempts` cap is advisory: `shouldReconnect` feeds a log
line only, so the loop structure below does not depend on it. -/

/-- Environment event for one iteration of the `Start` loop. -/
inductive LoopEvent where
  /-- `ctx.Done()` fires at the top of the loop. -/
  | cancelAtTop
  /-- `connectAndRun` returns an error (failed handshake, or a critical
  read error after a successful handshake); `cancelDuringWait` tells
  whether `ctx.Done()` fires during the backoff wait that follows. -/
  | connectFail (cancelDuringWait : Bool)
  /-- `connectAndRun` returns `nil`: the handshake succeeded and the
  message loop served until the cancellation signal fired. -/
  | connectedUntilCancel
deriving DecidableEq

/-- Observable outcome of running the `Start` loop against a finite
environment script: either the loop returned (always with a `nil`
error), or the script ran out and the loop is still running; in both
cases we count the handshake attempts performed. -/
inductive StartResult where
  | exited (handshakes : Nat)
  | stillRunning (handshakes : Nat)
deriving DecidableEq

/-- `TelegramBot.Start` (src/unnamed/part_006 lines 56-104), executed
against a finite script of environment events; `hs` accumulates the
handshake attempts made so far. -/
def startLoop (hs : Nat) : List LoopEvent → StartResult
  | [] => StartResult.stillRunning hs
  | LoopEvent.cancelAtTop :: _ => StartResult.exited hs
  | LoopEvent.connectFail true :: _ => StartResult.exited (hs + 1)
  | LoopEvent.connectFail false :: rest => startLoop (hs + 1) rest
  | LoopEvent.connectedUntilCancel :: _ => StartResult.exited (hs + 1)

/-- `shouldReconnect` (src/unnamed/part_006 lines 186-194).  Its result
only selects a log message in `Start`; the loop continues regardless. -/
def shouldReconnect (maxReconnectAttempts reconnectAttempts : Nat) : Bool :=
  if maxReconnectAttempts = 0 then true
  else decide (reconnectAttempts < maxReconnectAttempts)

/-- An event that carries the external cancellation signal. -/
def LoopEvent.isCancel : LoopEvent → Bool
  | LoopEvent.cancelAtTop => true
  | LoopEvent.connectFail c => c
  | LoopEvent.connectedUntilCancel => true

/-! ## Conversation dispatcher (internal/bot/bot.go) -/

/-- Go `time.Minute` in nanoseconds. -/
def minute : Int := 60000000000

/-- Digit-string value, `none` unless nonempty and all digits. -/
def digitsVal : List Char → Option Nat
  | [] => none
  | [c] => if c.isDigit then some (c.toNat - '0'.toNat) else none
  | c :: rest =>
      if c.isDigit then
        match digitsVal rest with
        | some n => some ((c.toNat - '0'.toNat) * 10 ^ rest.length + n)
        | none => none
      else none

/-- `strconv.Atoi`: optional sign, then decimal digits (the int64
overflow bound is irrelevant for the inputs this bot handles). -/
def goAtoi (s : String) : Option Int :=
  match s.data with
  | [] => none
  | '+' :: rest => (digitsVal rest).map Int.ofNat
  | '-' :: rest => (digitsVal rest).map (fun n => -(n : Int))
  | l => (digitsVal l).map Int.ofNat

/-- Character-list prefix test (kernel-reducible model of
`strings.HasPrefix`). -/
def listIsPfx : List Char → List Char → Bool
  | [], _ => true
  | _ :: _, [] => false
  | c :: cs, d :: ds => decide (c = d) && listIsPfx cs ds

/-- `strings.TrimPrefix`. -/
def trimPfx (s p : String) : String :=
  if listIsPfx p.data s.data then ⟨s.data.drop p.data.length⟩ else s

/-- An inbound text message: sender identity and chat identity. -/
structure Msg where
  fromID : Int
  chatID : Int
  text : String
deriving DecidableEq

/-- The dispatcher's per-chat mutable state: `userStates`
(`map[int64]string`) and `userData` (`map[int64]map[string]any`, of
which only the `"selected_user"` string is ever used — `none` models a
missing or non-string entry). -/
structure BotState where
  userStates : List (Int × String)
  userData : List (Int × Option String)
deriving DecidableEq

/-- Combined state threaded through the dispatcher handlers. -/
structure World where
  bot : BotState
  mgr : Manager
  backend : Backend

/-- Which user-interface reply a handler produced (message contents are
abstracted to a tag). -/
inductive UiAction where
  | mainMenu
  | grantAccountMenu
  | durationMenu
  | customDurationPrompt
  | invalidDurationMsg
  | grantFailMsg
  | grantOkMsg
  | unknownCommandMsg
  | noUi
deriving DecidableEq

/-- Result of a dispatcher handler: new world, UI reply, Go error. -/
structure BotResult where
  w : World
  ui : UiAction
  res : Option String

/-- `TelegramBot.grantAccess` (internal/bot/bot.go lines 454-511 and
src/unnamed/part_006 lines 623-680, identical): read the selection from
`userData[chatID]`, run the registry grant, and delete
`userData[chatID]` only on success. -/
def Bot.grantAccess (w : World) (chatID _messageID : Int)
    (durationMinutes : Int) (now : Int) : BotResult :=
  match lookupKV w.bot.userData chatID with
  | none => ⟨w, UiAction.grantAccountMenu, some "no child selected"⟩
  | some none =>
      ⟨w, UiAction.grantAccountMenu, some "no child selected"⟩
  | some (some username) =>
      if username = "" then
        ⟨w, UiAction.grantAccountMenu, some "no child selected"⟩
      else
        match w.mgr.GrantAccess w.backend username
          (durationMinutes * minute) now with
        | ⟨mgr2, backend2, some e⟩ =>
            ⟨⟨w.bot, mgr2, backend2⟩, UiAction.grantFailMsg, some e⟩
        | ⟨mgr2, backend2, none⟩ =>
            ⟨⟨{ w.bot with userData := eraseKV w.bot.userData chatID },
              mgr2, backend2⟩,
             UiAction.grantOkMsg, none⟩

/-- `showDurationMenu` (bot.go lines 371-406): redirects to the account
menu when no valid selection is stored for the chat. -/
def Bot.showDurationMenu (w : World) (chatID _messageID : Int) : BotResult :=
  match lookupKV w.bot.userData chatID with
  | some (some username) =>
      if username = "" then
        ⟨⟨{ w.bot with
            userStates := setKV w.bot.userStates chatID "grant_duration" },
          w.mgr, w.backend⟩,
         UiAction.grantAccountMenu, none⟩
      else ⟨w, UiAction.durationMenu, none⟩
  | _ =>
      ⟨⟨{ w.bot with
          userStates := setKV w.bot.userStates chatID "grant_duration" },
        w.mgr, w.backend⟩,
       UiAction.grantAccountMenu, none⟩

/-- `handleGrantAccess` (bot.go lines 324-339): store the conversation
step and the selected account under the **chat** identifier. -/
def Bot.handleGrantAccess (w : World) (data : String)
    (chatID messageID : Int) : BotResult :=
  if data = "grant_menu" then ⟨w, UiAction.grantAccountMenu, none⟩
  else
    let username := trimPfx data "grant_"
    let bot1 := { w.bot with
      userStates := setKV w.bot.userStates chatID "grant_duration",
      userData := setKV w.bot.userData chatID (some username) }
    Bot.showDurationMenu ⟨bot1, w.mgr, w.backend⟩ chatID messageID

/-- `handleDurationSelection` (bot.go lines 408-430): the quick path
parses whatever integer the callback data carries and forwards it to
the grant operation without any range check. -/
def Bot.handleDurationSelection (w : World) (data : String)
    (chatID messageID : Int) (now : Int) : BotResult :=
  if data = "duration_custom" then
    ⟨⟨{ w.bot with
        userStates := setKV w.bot.userStates chatID "custom_duration" },
      w.mgr, w.backend⟩,
     UiAction.customDurationPrompt, none⟩
  else
    match goAtoi (trimPfx data "duration_") with
    | none => ⟨w, UiAction.noUi, some "invalid syntax"⟩
    | some duration => Bot.grantAccess w chatID messageID duration now

/-- `handleStateInput` (bot.go lines 432-452): the custom-duration step
validates the input is an integer in [1,480]; invalid input re-prompts
without touching any state.  Valid input deletes the step state keyed
by the **sender** identifier, then grants. -/
def Bot.handleStateInput (w : World) (message : Msg) (state : String)
    (now : Int) : BotResult :=
  if state = "custom_duration" then
    match goAtoi message.text with
    | some duration =>
        if duration < 1 ∨ duration > 480 then
          ⟨w, UiAction.invalidDurationMsg, none⟩
        else
          let w1 : World :=
            ⟨{ w.bot with
               userStates := eraseKV w.bot.userStates message.fromID },
             w.mgr, w.backend⟩
          Bot.grantAccess w1 message.chatID 0 duration now
    | none => ⟨w, UiAction.invalidDurationMsg, none⟩
  else ⟨w, UiAction.noUi, none⟩

/-- `handleMessage` (bot.go lines 130-148): a pending step is looked up
under the **sender** identifier. -/
def Bot.handleMessage (w : World) (message : Msg) (now : Int) : BotResult :=
  if message.text = "/start" then ⟨w, UiAction.mainMenu, none⟩
  else
    match lookupKV w.bot.userStates message.fromID with
    | some state => Bot.handleStateInput w message state now
    | none => ⟨w, UiAction.unknownCommandMsg, none⟩

/-! ## Concrete fixtures for counterexamples and witnesses -/

/-- A managed account used in concrete scenarios. -/
def accKid : ChildAccount := ⟨"kid", "Kid", "pw0"⟩

/-- Second managed account. -/
def accAnn : ChildAccount := ⟨"ann", "Ann", "pw1"⟩

/-- Third managed account. -/
def accBob : ChildAccount := ⟨"bob", "Bob", "pw2"⟩

/-- A healthy backend with one live `WTSActive` session owned by `kid`. -/
def bKid : Backend :=
  { enumOk := true, sessions := [⟨1, some "kid", 0⟩],
    loginOk := fun _ => true, enumAfterLoginOk := true,
    sessionsAfterLogin := [], logoffFails := fun _ => false,
    setPwFails := fun _ => false, secrets := [], calls := [] }

/-- Same backend, but every password-set call for `kid` fails. -/
def bKidPwFail : Backend := { bKid with setPwFails := fun u => decide (u = "kid") }

/-- Registry knowing `kid`, holding one Grant for `kid`. -/
def mKid : Manager := ⟨[accKid], [("kid", ⟨"kid", 0, 5, true⟩)]⟩

/-- Registry knowing `kid`, holding no Grant. -/
def mKidEmpty : Manager := ⟨[accKid], []⟩

/-- Dispatcher world where chat 5 has selected `kid` and sits at the
duration step, but the registry knows no accounts (grant will fail). -/
def wNoAccounts : World :=
  ⟨⟨[(5, "grant_duration")], [(5, some "kid")]⟩, ⟨[], []⟩, bKid⟩

/-- Dispatcher world where chat 5 has selected `kid` and the registry
can grant successfully. -/
def wKid : World :=
  ⟨⟨[(5, "grant_duration")], [(5, some "kid")]⟩, mKidEmpty, bKid⟩

/-- Dispatcher world where chat 5 sits at the custom-duration input
step (step state stored under the chat identifier 5). -/
def wChat5 : World :=
  ⟨⟨[(5, "custom_duration")], [(5, some "kid")]⟩, mKidEmpty, bKid⟩

/-! ## Theorems -/

theorem lookupKV_eraseKV_self {α β : Type} [DecidableEq α]
    (l : List (α × β)) (k : α) : lookupKV (eraseKV l k) k = none := by
  induction l with
  | nil => rfl
  | cons p rest ih =>
      by_cases h : p.1 = k
      · simp [eraseKV, h, ih]
      · simp [eraseKV, lookupKV, h, ih]

theorem lookupKV_eraseKV_ne {α β : Type} [DecidableEq α]
    (l : List (α × β)) (k k' : α) (h : k' ≠ k) :
    lookupKV (eraseKV l k) k' = lookupKV l k' := by
  induction l with
  | nil => rfl
  | cons p rest ih =>
      by_cases hp : p.1 = k
      · simp [eraseKV, hp, lookupKV, ih, Ne.symm h]
      · by_cases hp' : p.1 = k'
        · simp [eraseKV, hp, lookupKV, hp', h]
        · simp [eraseKV, hp, lookupKV, hp', ih]

theorem lookupKV_append {α β : Type} [DecidableEq α]
    (l₁ l₂ : List (α × β)) (k : α) :
    lookupKV (l₁ ++ l₂) k =
      (match lookupKV l₁ k with
       | some v => some v
       | none => lookupKV l₂ k) := by
  induction l₁ with
  | nil => simp [lookupKV]
  | cons p rest ih =>
      by_cases hp : p.1 = k
      · simp [lookupKV, hp]
      · simp [lookupKV, hp, ih]

theorem lookupKV_setKV_self {α β : Type} [DecidableEq α]
    (l : List (α × β)) (k : α) (v : β) :
    lookupKV (setKV l k v) k = some v := by
  simp [setKV, lookupKV_append, lookupKV_eraseKV_self, lookupKV]

theorem lookupKV_setKV_ne {α β : Type} [DecidableEq α]
    (l : List (α × β)) (k k' : α) (v : β) (h : k' ≠ k) :
    lookupKV (setKV l k v) k' = lookupKV l k' := by
  simp [setKV, lookupKV_append, lookupKV_eraseKV_ne l k k' h, lookupKV,
    Ne.symm h]
  cases lookupKV l k' <;> simp


theorem setUserPassword_fst_calls (b : Backend) (u pw : String) :
    ((b.setUserPassword u pw).1).calls = b.calls ++ [BCall.setPassword u pw] := by
  simp only [Backend.setUserPassword]
  split <;> rfl

theorem logoffSession_fst_calls (b : Backend) (id : Nat) :
    ((b.logoffSession id).1).calls = b.calls ++ [BCall.logoff id] := by
  simp only [Backend.logoffSession]
  split <;> rfl

/-- C1.  The claim says `Lock(A)` is idempotent: twice in a row it
succeeds both times and still attempts to restore the configured
secret even without a Grant.  The code disagrees: `LockSession` errors
with "session not found" whenever no live `WTSActive` session for `A`
is enumerated, and the secret restore sits inside the found-session
branch.  Amended: the first call succeeds (logs the session off and
restores the configured secret) and drops the Grant; the second call
still leaves no Grant but returns the session-not-found error and
issues no backend call at all. -/
theorem lockSession_twice_not_idempotent
    (acc : ChildAccount) (sid : Nat) (g : ActiveSession)
    (secrets0 : List (String × String)) (lo : String → Bool)
    (ealo : Bool) (sal : List WtsSession)
    (hpw : acc.password ≠ "") :
    let b : Backend :=
      { enumOk := true, sessions := [⟨sid, some acc.username, WTSActive⟩],
        loginOk := lo, enumAfterLoginOk := ealo, sessionsAfterLogin := sal,
        logoffFails := fun _ => false, setPwFails := fun _ => false,
        secrets := secrets0, calls := [] }
    let m : Manager := ⟨[acc], [(acc.username, g)]⟩
    let r1 := m.LockSession b acc.username
    let r2 := r1.mgr.LockSession r1.backend acc.username
    r1.res = none ∧
    lookupKV r1.backend.secrets acc.username = some acc.password ∧
    r1.mgr.activeSessions = [] ∧
    r2.res = some ("user " ++ acc.username ++ " session not found") ∧
    r2.backend.calls = r1.backend.calls ∧
    r2.mgr.activeSessions = [] := by
  simp [Manager.LockSession, findSession, findAccount, Backend.logoffSession,
    Backend.setUserPassword, WTSActive, eraseKV, hpw, lookupKV_setKV_self]

/-- C1 counterexample: on a concrete healthy state the second of two
consecutive `LockSession("kid")` calls fails instead of succeeding. -/
theorem lockSession_twice_counterexample :
    (mKid.LockSession bKid "kid").res = none ∧
    ((mKid.LockSession bKid "kid").mgr.LockSession
        (mKid.LockSession bKid "kid").backend "kid").res =
      some "user kid session not found" ∧
    ((mKid.LockSession bKid "kid").mgr.LockSession
        (mKid.LockSession bKid "kid").backend "kid").backend.calls =
      (mKid.LockSession bKid "kid").backend.calls := by
  decide

/-- C1 witness: the amended statement at a concrete state. -/
theorem lockSession_twice_witness :
    accKid.password ≠ "" ∧
    (let b : Backend :=
      { enumOk := true, sessions := [⟨1, some accKid.username, WTSActive⟩],
        loginOk := fun _ => true, enumAfterLoginOk := true,
        sessionsAfterLogin := [], logoffFails := fun _ => false,
        setPwFails := fun _ => false, secrets := [], calls := [] }
     let m : Manager := ⟨[accKid], [(accKid.username, ⟨"kid", 0, 5, true⟩)]⟩
     let r1 := m.LockSession b accKid.username
     let r2 := r1.mgr.LockSession r1.backend accKid.username
     r1.res = none ∧
     lookupKV r1.backend.secrets accKid.username = some accKid.password ∧
     r1.mgr.activeSessions = [] ∧
     r2.res = some ("user " ++ accKid.username ++ " session not found") ∧
     r2.backend.calls = r1.backend.calls ∧
     r2.mgr.activeSessions = []) :=
  ⟨by decide,
   lockSession_twice_not_idempotent accKid 1 ⟨"kid", 0, 5, true⟩ []
     (fun _ => true) true [] (by decide)⟩

/-- C2.  The claim says a failed backend secret-change during
`GrantAccess` still installs the Grant record.  The code installs the
record only *after* a successful secret-change: every error return of
`GrantAccess` leaves the Grant table exactly as it was. -/
theorem grantAccess_error_installs_no_record
    (m : Manager) (b : Backend) (u : String) (d t : Int) (e : String)
    (h : (m.GrantAccess b u d t).res = some e) :
    (m.GrantAccess b u d t).mgr.activeSessions = m.activeSessions := by
  revert h
  unfold Manager.GrantAccess Manager.grantFinish
  repeat' split
  all_goals intro h
  all_goals first
    | rfl
    | simp at h

/-- C2 counterexample: with the secret-change failing, `GrantAccess`
returns the error and the Grant table stays empty — no record is
installed. -/
theorem grantAccess_secret_failure_counterexample :
    (mKidEmpty.GrantAccess bKidPwFail "kid" 5 0).res =
      some "failed to set temporary password" ∧
    (mKidEmpty.GrantAccess bKidPwFail "kid" 5 0).mgr.activeSessions = [] := by
  decide

/-- C2 witness: the amended statement at the concrete failing state. -/
theorem grantAccess_error_no_record_witness :
    (mKidEmpty.GrantAccess bKidPwFail "kid" 5 0).res =
      some "failed to set temporary password" ∧
    (mKidEmpty.GrantAccess bKidPwFail "kid" 5 0).mgr.activeSessions =
      mKidEmpty.activeSessions :=
  ⟨by decide,
   grantAccess_error_installs_no_record mKidEmpty bKidPwFail "kid" 5 0
     "failed to set temporary password" (by decide)⟩

/-- C4.  The claim says `GetActiveSessions` filters out Grants whose
expiry instant has passed.  The code filters on the `IsActive` flag
only: any Grant the sweep has not yet removed — including an expired
one — is returned.  Amended: every Grant reported expired by
`GetExpiredSessions` is still present in `GetActiveSessions`. -/
theorem expired_grants_still_listed_active
    (m : Manager) (now : Int) (s : ActiveSession)
    (h : s ∈ m.GetExpiredSessions now) :
    ∃ k, (k, s) ∈ m.GetActiveSessions := by
  simp only [Manager.GetExpiredSessions, List.mem_map, List.mem_filter] at h
  obtain ⟨p, hp, rfl⟩ := h
  refine ⟨p.1, ?_⟩
  simp only [Manager.GetActiveSessions, List.mem_filter]
  constructor
  · exact (Prod.mk.eta (p := p)).symm ▸ hp.1
  · have h2 := hp.2
    simp only [Bool.and_eq_true] at h2
    exact h2.1

/-- C4 counterexample: at time 100 the Grant `start=0, duration=5` is
expired (it is in `GetExpiredSessions`) yet is still returned by
`GetActiveSessions`. -/
theorem activeGrants_include_expired_counterexample :
    (⟨"kid", 0, 5, true⟩ : ActiveSession) ∈ mKid.GetExpiredSessions 100 ∧
    ("kid", (⟨"kid", 0, 5, true⟩ : ActiveSession)) ∈ mKid.GetActiveSessions := by
  decide

/-- C4 witness: the amended statement at the concrete expired state. -/
theorem expired_grants_still_listed_witness :
    ∃ k, (k, (⟨"kid", 0, 5, true⟩ : ActiveSession)) ∈ mKid.GetActiveSessions :=
  expired_grants_still_listed_active mKid 100 ⟨"kid", 0, 5, true⟩ (by decide)

/-- C6: granting the same account again before expiry overwrites the
previous Grant: after `GrantAccess(A,d1)` then `GrantAccess(A,d2)` the
table holds exactly one Grant for `A`, carrying `d2`. -/
theorem regrant_overwrites
    (acc : ChildAccount) (sid : Nat) (lo : String → Bool) (ealo : Bool)
    (sal : List WtsSession) (lf : Nat → Bool)
    (secrets0 : List (String × String)) (d1 d2 t1 t2 : Int) :
    let b : Backend :=
      { enumOk := true, sessions := [⟨sid, some acc.username, WTSActive⟩],
        loginOk := lo, enumAfterLoginOk := ealo, sessionsAfterLogin := sal,
        logoffFails := lf, setPwFails := fun _ => false,
        secrets := secrets0, calls := [] }
    let m : Manager := ⟨[acc], []⟩
    let r1 := m.GrantAccess b acc.username d1 t1
    let r2 := r1.mgr.GrantAccess r1.backend acc.username d2 t2
    r1.res = none ∧ r2.res = none ∧
    r2.mgr.activeSessions = [(acc.username, ⟨acc.username, t2, d2, true⟩)] := by
  simp [Manager.GrantAccess, Manager.grantFinish, findAccount, findSession,
    Backend.setUserPassword, setKV, eraseKV, WTSActive]

/-- C9: the temporary secret applied by a grant is the hard-coded
constant "123456" — a successful `GrantAccess` issues exactly one
backend secret-set call carrying it, and every secret-set call any
`GrantAccess` run ever issues carries it, independent of account,
configuration and prior state. -/
theorem grant_temp_secret_constant :
    (∀ (m : Manager) (b : Backend) (u : String) (d t : Int),
        (m.GrantAccess b u d t).res = none →
        (m.GrantAccess b u d t).backend.calls =
          b.calls ++ [BCall.setPassword u "123456"]) ∧
    (∀ (m : Manager) (b : Backend) (u : String) (d t : Int) (c : BCall),
        c ∈ (m.GrantAccess b u d t).backend.calls.drop b.calls.length →
        ∀ u' pw, c = BCall.setPassword u' pw → pw = "123456") := by
  constructor
  · intro m b u d t h
    revert h
    unfold Manager.GrantAccess Manager.grantFinish
    repeat' split
    all_goals intro h
    all_goals first
      | (exact setUserPassword_fst_calls b u "123456")
      | (exact setUserPassword_fst_calls
          { b with sessions := b.sessionsAfterLogin } u "123456")
      | simp at h
  · intro m b u d t c hc u' pw hcall
    subst hcall
    revert hc
    unfold Manager.GrantAccess Manager.grantFinish
    repeat' split
    all_goals intro hc
    all_goals
      simp only [setUserPassword_fst_calls, List.drop_left, List.drop_length,
        List.mem_singleton, List.not_mem_nil] at hc
    all_goals injection hc with h1 h2

theorem logoffSession_fst_secrets (b : Backend) (id : Nat) :
    ((b.logoffSession id).1).secrets = b.secrets := by
  simp only [Backend.logoffSession]
  split <;> rfl

theorem logoffSession_fst_setPwFails (b : Backend) (id : Nat) :
    ((b.logoffSession id).1).setPwFails = b.setPwFails := by
  simp only [Backend.logoffSession]
  split <;> rfl

theorem setUserPassword_fst_setPwFails (b : Backend) (u pw : String) :
    ((b.setUserPassword u pw).1).setPwFails = b.setPwFails := by
  simp only [Backend.setUserPassword]
  split <;> rfl

theorem setUserPassword_fst_secrets (b : Backend) (u pw : String)
    (hspf : b.setPwFails u = false) :
    ((b.setUserPassword u pw).1).secrets = setKV b.secrets u pw := by
  simp [Backend.setUserPassword, hspf]

theorem lockAllStep_setPwFails (accs : List ChildAccount) (b : Backend)
    (s : WtsSession) : (lockAllStep accs b s).setPwFails = b.setPwFails := by
  simp only [lockAllStep]
  repeat' split
  all_goals first
    | rfl
    | simp [setUserPassword_fst_setPwFails, logoffSession_fst_setPwFails]

theorem lockAllStep_secrets (accs : List ChildAccount) (b : Backend)
    (s : WtsSession) (u : String) (a : ChildAccount)
    (hstate : s.state = WTSActive) (hu : s.user = some u)
    (hacc : findAccount accs u = some a) (hpw : a.password ≠ "")
    (hspf : b.setPwFails u = false) :
    (lockAllStep accs b s).secrets = setKV b.secrets u a.password := by
  simp only [lockAllStep, hstate, hu, hacc, hpw, ne_eq, eq_self_iff_true,
    if_true, not_false_iff]
  rw [setUserPassword_fst_secrets _ _ _
      (by rw [logoffSession_fst_setPwFails]; exact hspf),
    logoffSession_fst_secrets]

theorem lockAllStep_calls (accs : List ChildAccount) (b : Backend)
    (s : WtsSession) (u : String) (a : ChildAccount)
    (hstate : s.state = WTSActive) (hu : s.user = some u)
    (hacc : findAccount accs u = some a) (hpw : a.password ≠ "") :
    (lockAllStep accs b s).calls =
      b.calls ++ [BCall.logoff s.sessionID, BCall.setPassword u a.password] := by
  simp [lockAllStep, hstate, hu, hacc, hpw, setUserPassword_fst_calls,
    logoffSession_fst_calls]

/-- C5: `LockAllSessions` with three active Grants (three child accounts,
each with a live `WTSActive` session and a nonempty configured secret)
clears the Grant table — `GetActiveSessions` is empty afterwards — and
issues the logoff and the configured-secret restore for each of the
three accounts under **every** pattern of backend call failures: a
partial failure aborts nothing.  In particular, when the secret-set
primitive itself works, all three configured secrets are in place
afterwards even if any of the session-close calls failed. -/
theorem lockAll_clears_and_restores_all
    (a1 a2 a3 : ChildAccount) (id1 id2 id3 : Nat)
    (g : List (String × ActiveSession)) (lo : String → Bool) (ealo : Bool)
    (sal : List WtsSession) (secrets0 : List (String × String))
    (h12 : a1.username ≠ a2.username) (h13 : a1.username ≠ a3.username)
    (h23 : a2.username ≠ a3.username)
    (hp1 : a1.password ≠ "") (hp2 : a2.password ≠ "") (hp3 : a3.password ≠ "") :
    (∀ (lf : Nat → Bool) (spf : String → Bool),
      let b : Backend :=
        ⟨true,
         [⟨id1, some a1.username, WTSActive⟩, ⟨id2, some a2.username, WTSActive⟩,
          ⟨id3, some a3.username, WTSActive⟩],
         lo, ealo, sal, lf, spf, secrets0, []⟩
      let r := Manager.LockAllSessions ⟨[a1, a2, a3], g⟩ b
      r.res = none ∧ r.mgr.GetActiveSessions = [] ∧
      r.backend.calls =
        [BCall.logoff id1, BCall.setPassword a1.username a1.password,
         BCall.logoff id2, BCall.setPassword a2.username a2.password,
         BCall.logoff id3, BCall.setPassword a3.username a3.password]) ∧
    (∀ (lf : Nat → Bool),
      let b : Backend :=
        ⟨true,
         [⟨id1, some a1.username, WTSActive⟩, ⟨id2, some a2.username, WTSActive⟩,
          ⟨id3, some a3.username, WTSActive⟩],
         lo, ealo, sal, lf, fun _ => false, secrets0, []⟩
      let r := Manager.LockAllSessions ⟨[a1, a2, a3], g⟩ b
      lookupKV r.backend.secrets a1.username = some a1.password ∧
      lookupKV r.backend.secrets a2.username = some a2.password ∧
      lookupKV r.backend.secrets a3.username = some a3.password) := by
  have hacc1 : findAccount [a1, a2, a3] a1.username = some a1 := by
    simp [findAccount]
  have hacc2 : findAccount [a1, a2, a3] a2.username = some a2 := by
    simp [findAccount, h12]
  have hacc3 : findAccount [a1, a2, a3] a3.username = some a3 := by
    simp [findAccount, h13, h23]
  constructor
  · intro lf spf
    refine ⟨rfl, rfl, ?_⟩
    simp only [Manager.LockAllSessions, eq_self_iff_true, if_true,
      List.foldl_cons, List.foldl_nil]
    rw [lockAllStep_calls [a1, a2, a3] _ ⟨id3, some a3.username, WTSActive⟩
        a3.username a3 rfl rfl hacc3 hp3,
      lockAllStep_calls [a1, a2, a3] _ ⟨id2, some a2.username, WTSActive⟩
        a2.username a2 rfl rfl hacc2 hp2,
      lockAllStep_calls [a1, a2, a3] _ ⟨id1, some a1.username, WTSActive⟩
        a1.username a1 rfl rfl hacc1 hp1]
    simp
  · intro lf
    simp only [Manager.LockAllSessions, eq_self_iff_true, if_true,
      List.foldl_cons, List.foldl_nil]
    rw [lockAllStep_secrets [a1, a2, a3] _ ⟨id3, some a3.username, WTSActive⟩
        a3.username a3 rfl rfl hacc3 hp3
        (by rw [lockAllStep_setPwFails, lockAllStep_setPwFails]),
      lockAllStep_secrets [a1, a2, a3] _ ⟨id2, some a2.username, WTSActive⟩
        a2.username a2 rfl rfl hacc2 hp2 (by rw [lockAllStep_setPwFails]),
      lockAllStep_secrets [a1, a2, a3] _ ⟨id1, some a1.username, WTSActive⟩
        a1.username a1 rfl rfl hacc1 hp1 rfl]
    refine ⟨?_, ?_, ?_⟩
    · rw [lookupKV_setKV_ne _ _ _ _ h13, lookupKV_setKV_ne _ _ _ _ h12,
        lookupKV_setKV_self]
    · rw [lookupKV_setKV_ne _ _ _ _ h23, lookupKV_setKV_self]
    · rw [lookupKV_setKV_self]

/-- C5 witness: the statement at a concrete three-account state, with
the session-close for the second account failing. -/
theorem lockAll_clears_and_restores_witness :
    accKid.username ≠ accAnn.username ∧
    ((Manager.LockAllSessions
        ⟨[accKid, accAnn, accBob],
         [("kid", ⟨"kid", 0, 5, true⟩), ("ann", ⟨"ann", 0, 5, true⟩),
          ("bob", ⟨"bob", 0, 5, true⟩)]⟩
        ⟨true,
         [⟨1, some accKid.username, WTSActive⟩,
          ⟨2, some accAnn.username, WTSActive⟩,
          ⟨3, some accBob.username, WTSActive⟩],
         fun _ => true, true, [], fun id => decide (id = 2), fun _ => false,
         [], []⟩).res = none ∧
     (Manager.LockAllSessions
        ⟨[accKid, accAnn, accBob],
         [("kid", ⟨"kid", 0, 5, true⟩), ("ann", ⟨"ann", 0, 5, true⟩),
          ("bob", ⟨"bob", 0, 5, true⟩)]⟩
        ⟨true,
         [⟨1, some accKid.username, WTSActive⟩,
          ⟨2, some accAnn.username, WTSActive⟩,
          ⟨3, some accBob.username, WTSActive⟩],
         fun _ => true, true, [], fun id => decide (id = 2), fun _ => false,
         [], []⟩).mgr.GetActiveSessions = [] ∧
     (Manager.LockAllSessions
        ⟨[accKid, accAnn, accBob],
         [("kid", ⟨"kid", 0, 5, true⟩), ("ann", ⟨"ann", 0, 5, true⟩),
          ("bob", ⟨"bob", 0, 5, true⟩)]⟩
        ⟨true,
         [⟨1, some accKid.username, WTSActive⟩,
          ⟨2, some accAnn.username, WTSActive⟩,
          ⟨3, some accBob.username, WTSActive⟩],
         fun _ => true, true, [], fun id => decide (id = 2), fun _ => false,
         [], []⟩).backend.calls =
       [BCall.logoff 1, BCall.setPassword accKid.username accKid.password,
        BCall.logoff 2, BCall.setPassword accAnn.username accAnn.password,
        BCall.logoff 3, BCall.setPassword accBob.username accBob.password]) :=
  ⟨by decide,
   (lockAll_clears_and_restores_all accKid accAnn accBob 1 2 3
      [("kid", ⟨"kid", 0, 5, true⟩), ("ann", ⟨"ann", 0, 5, true⟩),
       ("bob", ⟨"bob", 0, 5, true⟩)]
      (fun _ => true) true [] []
      (by decide) (by decide) (by decide) (by decide) (by decide)
      (by decide)).1
     (fun id => decide (id = 2)) (fun _ => false)⟩

theorem startLoop_replicate_connectFail (N : Nat) (hs : Nat)
    (l : List LoopEvent) :
    startLoop hs (List.replicate N (LoopEvent.connectFail false) ++ l) =
      startLoop (hs + N) l := by
  induction N generalizing hs with
  | zero => simp
  | succ n ih =>
      have step : ∀ (hs' : Nat) (l' : List LoopEvent),
          startLoop hs' (LoopEvent.connectFail false :: l') =
            startLoop (hs' + 1) l' := fun _ _ => rfl
      rw [List.replicate_succ, List.cons_append, step, ih]
      have h : hs + 1 + n = hs + (n + 1) := by omega
      rw [h]

theorem startLoop_all_fail_still_running (l : List LoopEvent)
    (h : ∀ e ∈ l, e = LoopEvent.connectFail false) (hs : Nat) :
    startLoop hs l = StartResult.stillRunning (hs + l.length) := by
  induction l generalizing hs with
  | nil => simp [startLoop]
  | cons e rest ih =>
      have he := h e (by simp)
      subst he
      have step : ∀ (hs' : Nat),
          startLoop hs' (LoopEvent.connectFail false :: rest) =
            startLoop (hs' + 1) rest := fun _ => rfl
      rw [step, ih (fun x hx => h x (by simp [hx])) (hs + 1)]
      simp only [List.length_cons]
      congr 1
      omega

theorem startLoop_exit_has_cancel (l : List LoopEvent) :
    ∀ (hs n : Nat), startLoop hs l = StartResult.exited n →
      ∃ e ∈ l, e.isCancel = true := by
  induction l with
  | nil =>
      intro hs n h
      simp [startLoop] at h
  | cons e rest ih =>
      intro hs n h
      cases e with
      | cancelAtTop => exact ⟨LoopEvent.cancelAtTop, by simp, rfl⟩
      | connectFail c =>
          cases c with
          | false =>
              simp only [startLoop] at h
              obtain ⟨e', he', hc⟩ := ih (hs + 1) n h
              exact ⟨e', by simp [he'], hc⟩
          | true => exact ⟨LoopEvent.connectFail true, by simp, rfl⟩
      | connectedUntilCancel =>
          exact ⟨LoopEvent.connectedUntilCancel, by simp, rfl⟩

/-- C3: against the reconnect loop of the command channel,
N consecutive critical connect/read errors followed by a successful
connection that serves until cancellation amount to exactly N+1
handshake attempts; with no cancellation the loop never returns after
any number of critical errors; and the loop can only ever exit when
some iteration observed the external cancellation signal (and then the
exit is `nil`-clean by construction of `startLoop`). -/
theorem channel_reconnect_loop (N : Nat) :
    startLoop 0 (List.replicate N (LoopEvent.connectFail false) ++
        [LoopEvent.connectedUntilCancel]) = StartResult.exited (N + 1) ∧
    startLoop 0 (List.replicate N (LoopEvent.connectFail false)) =
      StartResult.stillRunning N ∧
    (∀ l : List LoopEvent, startLoop 0 l = StartResult.exited N →
        ∃ e ∈ l, e.isCancel = true) := by
  refine ⟨?_, ?_, ?_⟩
  · rw [startLoop_replicate_connectFail]
    simp [startLoop]
  · have h := startLoop_all_fail_still_running
      (List.replicate N (LoopEvent.connectFail false))
      (fun e he => List.eq_of_mem_replicate he) 0
    simpa using h
  · intro l h
    exact startLoop_exit_has_cancel l 0 N h

/-- C3 witness: the reconnect-loop statement at N = 0 and a concrete
cancellation script. -/
theorem channel_reconnect_witness :
    startLoop 0 [LoopEvent.cancelAtTop] = StartResult.exited 0 ∧
    ∃ e ∈ [LoopEvent.cancelAtTop], e.isCancel = true :=
  ⟨by decide,
   (channel_reconnect_loop 0).2.2 [LoopEvent.cancelAtTop] (by decide)⟩

/-- C9 witness: a concrete successful grant issues the constant
temporary secret. -/
theorem grant_temp_secret_witness :
    (mKidEmpty.GrantAccess bKid "kid" 5 0).res = none ∧
    (mKidEmpty.GrantAccess bKid "kid" 5 0).backend.calls =
      bKid.calls ++ [BCall.setPassword "kid" "123456"] :=
  ⟨by decide,
   grant_temp_secret_constant.1 mKidEmpty bKid "kid" 5 0 (by decide)⟩

theorem grantAccess_userStates (w : World) (chatID mid d now : Int) :
    (Bot.grantAccess w chatID mid d now).w.bot.userStates =
      w.bot.userStates := by
  unfold Bot.grantAccess
  repeat' split
  all_goals rfl

/-- C7.  The claim says every transition reaching the grant operation
clears the per-chat conversation state unconditionally, on success and
on failure.  The code disagrees: on failure `grantAccess` returns the
error without touching any per-chat state, and even on success it only
deletes the `userData` selection for the chat — the `userStates` step
tag is never cleared by `grantAccess` itself. -/
theorem grantAccess_state_clearing :
    (∀ (w : World) (chatID mid d now : Int) (e : String),
        (Bot.grantAccess w chatID mid d now).res = some e →
        (Bot.grantAccess w chatID mid d now).w.bot = w.bot) ∧
    (∀ (w : World) (chatID mid d now : Int),
        (Bot.grantAccess w chatID mid d now).res = none →
        (Bot.grantAccess w chatID mid d now).w.bot.userData =
            eraseKV w.bot.userData chatID ∧
          (Bot.grantAccess w chatID mid d now).w.bot.userStates =
            w.bot.userStates) := by
  constructor
  · intro w chatID mid d now e h
    revert h
    unfold Bot.grantAccess
    repeat' split
    all_goals intro h
    all_goals first
      | rfl
      | simp at h
  · intro w chatID mid d now h
    revert h
    unfold Bot.grantAccess
    repeat' split
    all_goals intro h
    all_goals first
      | exact ⟨rfl, rfl⟩
      | simp at h

/-- C7 counterexample: with the registry grant failing (unknown
account), the chat's selected account and step tag both survive the
failed grant — nothing is cleared. -/
theorem grantAccess_failure_keeps_state_counterexample :
    (Bot.grantAccess wNoAccounts 5 1 30 0).res =
      some "child account kid not found" ∧
    lookupKV (Bot.grantAccess wNoAccounts 5 1 30 0).w.bot.userData 5 =
      some (some "kid") ∧
    lookupKV (Bot.grantAccess wNoAccounts 5 1 30 0).w.bot.userStates 5 =
      some "grant_duration" := by
  decide

/-- C7 witness: the amended statement at the concrete failing state and
at a concrete succeeding state. -/
theorem grantAccess_state_clearing_witness :
    ((Bot.grantAccess wNoAccounts 5 1 30 0).w.bot = wNoAccounts.bot) ∧
    ((Bot.grantAccess wKid 5 1 30 0).w.bot.userData =
        eraseKV wKid.bot.userData 5 ∧
      (Bot.grantAccess wKid 5 1 30 0).w.bot.userStates =
        wKid.bot.userStates) :=
  ⟨grantAccess_state_clearing.1 wNoAccounts 5 1 30 0
     "child account kid not found" (by decide),
   grantAccess_state_clearing.2 wKid 5 1 30 0 (by decide)⟩

/-- C8.  The claim says every duration the dispatcher passes to the
registry grant lies in [1,480].  Only the custom-input step validates
that range; the quick-selection path forwards whatever integer the
callback data carries, and the registry validates no range.  Amended:
the custom-input step re-prompts on non-numeric or out-of-range input
without changing any state; the registry accepts any duration; the
quick path is unvalidated (see the counterexample). -/
theorem duration_validation_dispatcher_only :
    (∀ (w : World) (msg : Msg) (now : Int),
        goAtoi msg.text = none →
        Bot.handleStateInput w msg "custom_duration" now =
          ⟨w, UiAction.invalidDurationMsg, none⟩) ∧
    (∀ (w : World) (msg : Msg) (now : Int) (n : Int),
        goAtoi msg.text = some n → (n < 1 ∨ n > 480) →
        Bot.handleStateInput w msg "custom_duration" now =
          ⟨w, UiAction.invalidDurationMsg, none⟩) ∧
    (∀ (acc : ChildAccount) (sid : Nat) (lo : String → Bool) (ealo : Bool)
        (sal : List WtsSession) (lf : Nat → Bool)
        (secrets0 : List (String × String))
        (g : List (String × ActiveSession)) (d t : Int),
        (Manager.GrantAccess ⟨[acc], g⟩
            ⟨true, [⟨sid, some acc.username, WTSActive⟩], lo, ealo, sal, lf,
             fun _ => false, secrets0, []⟩ acc.username d t).res = none) := by
  refine ⟨?_, ?_, ?_⟩
  · intro w msg now h
    simp [Bot.handleStateInput, h]
  · intro w msg now n h hrange
    simp [Bot.handleStateInput, h, hrange]
  · intro acc sid lo ealo sal lf secrets0 g d t
    simp [Manager.GrantAccess, Manager.grantFinish, findAccount, findSession,
      Backend.setUserPassword, WTSActive]

/-- C8 counterexample: the quick-selection path passes 481 minutes —
outside [1,480] — straight to the registry grant, which records it. -/
theorem quick_duration_no_clamp_counterexample :
    (Bot.handleDurationSelection wKid "duration_481" 5 1 0).res = none ∧
    lookupKV (Bot.handleDurationSelection wKid "duration_481" 5 1 0).w.mgr.activeSessions
        "kid" = some ⟨"kid", 0, 481 * minute, true⟩ ∧
    ¬ (481 ≤ 480) := by
  decide

/-- C8 witness: the amended statement at concrete inputs: non-numeric
custom input re-prompts leaving the world untouched, out-of-range 481
re-prompts likewise, and the registry accepts a 481-minute duration. -/
theorem duration_validation_witness :
    (Bot.handleStateInput wChat5 ⟨5, 5, "abc"⟩ "custom_duration" 0 =
      ⟨wChat5, UiAction.invalidDurationMsg, none⟩) ∧
    (Bot.handleStateInput wChat5 ⟨5, 5, "481"⟩ "custom_duration" 0 =
      ⟨wChat5, UiAction.invalidDurationMsg, none⟩) ∧
    (Manager.GrantAccess ⟨[accKid], []⟩
        ⟨true, [⟨1, some accKid.username, WTSActive⟩, ⟨2, none, 0⟩],
         fun _ => true, true, [], fun _ => false, fun _ => false, [], []⟩
        accKid.username (481 * minute) 0).res = none := by
  refine ⟨?_, ?_, ?_⟩
  · exact duration_validation_dispatcher_only.1 wChat5 ⟨5, 5, "abc"⟩ 0
      (by decide)
  · exact duration_validation_dispatcher_only.2.1 wChat5 ⟨5, 5, "481"⟩ 0 481
      (by decide) (by decide)
  · decide

/-- C10: the grant conversation stores its step under the chat
identifier (both the duration step set by account selection and the
custom-duration step), while the text-message handler reads the step
under the sender identifier and the custom-input handler deletes it
under the sender identifier; hence a message whose sender id has no
stored step — in particular one whose chat id ≠ sender id while the
step sits under the chat id — leaves every stored step untouched, and
a key different from the sender id is never removed by any message. -/
theorem conversation_state_keying :
    (∀ (w : World) (data : String) (chatID mid : Int),
        data ≠ "grant_menu" →
        lookupKV (Bot.handleGrantAccess w data chatID mid).w.bot.userStates
            chatID = some "grant_duration" ∧
        lookupKV (Bot.handleGrantAccess w data chatID mid).w.bot.userData
            chatID = some (some (trimPfx data "grant_")) ∧
        (∀ k : Int, k ≠ chatID →
          lookupKV (Bot.handleGrantAccess w data chatID mid).w.bot.userStates
              k = lookupKV w.bot.userStates k ∧
          lookupKV (Bot.handleGrantAccess w data chatID mid).w.bot.userData
              k = lookupKV w.bot.userData k)) ∧
    (∀ (w : World) (chatID mid now : Int),
        lookupKV (Bot.handleDurationSelection w "duration_custom" chatID mid
            now).w.bot.userStates chatID = some "custom_duration") ∧
    (∀ (w : World) (msg : Msg) (now : Int),
        msg.text ≠ "/start" →
        lookupKV w.bot.userStates msg.fromID = none →
        Bot.handleMessage w msg now = ⟨w, UiAction.unknownCommandMsg, none⟩) ∧
    (∀ (w : World) (msg : Msg) (now : Int) (k : Int),
        k ≠ msg.fromID →
        lookupKV (Bot.handleMessage w msg now).w.bot.userStates k =
          lookupKV w.bot.userStates k) ∧
    (∀ (w : World) (msg : Msg) (now : Int) (n : Int),
        lookupKV w.bot.userStates msg.fromID = some "custom_duration" →
        goAtoi msg.text = some n → 1 ≤ n → n ≤ 480 →
        (Bot.handleMessage w msg now).w.bot.userStates =
          eraseKV w.bot.userStates msg.fromID) := by
  refine ⟨?_, ?_, ?_, ?_, ?_⟩
  · intro w data chatID mid hdata
    unfold Bot.handleGrantAccess Bot.showDurationMenu
    rw [if_neg hdata]
    simp only [lookupKV_setKV_self]
    by_cases hu : trimPfx data "grant_" = ""
    · simp only [hu, eq_self_iff_true, if_true]
      refine ⟨by rw [lookupKV_setKV_self], by rw [lookupKV_setKV_self], ?_⟩
      intro k hk
      rw [lookupKV_setKV_ne _ _ _ _ hk, lookupKV_setKV_ne _ _ _ _ hk,
        lookupKV_setKV_ne _ _ _ _ hk]
      exact ⟨rfl, rfl⟩
    · rw [if_neg hu]
      refine ⟨by rw [lookupKV_setKV_self], by rw [lookupKV_setKV_self], ?_⟩
      intro k hk
      rw [lookupKV_setKV_ne _ _ _ _ hk, lookupKV_setKV_ne _ _ _ _ hk]
      exact ⟨rfl, rfl⟩
  · intro w chatID mid now
    unfold Bot.handleDurationSelection
    rw [if_pos rfl]
    exact lookupKV_setKV_self _ _ _
  · intro w msg now htext hnone
    unfold Bot.handleMessage
    rw [if_neg htext, hnone]
  · intro w msg now k hk
    unfold Bot.handleMessage Bot.handleStateInput
    repeat' split
    all_goals first
      | rfl
      | (rw [grantAccess_userStates]
         exact lookupKV_eraseKV_ne _ _ _ hk)
  · intro w msg now n hstate hparse h1 h480
    have htext : msg.text ≠ "/start" := by
      intro hx
      rw [hx] at hparse
      have hnone : goAtoi "/start" = none := by decide
      rw [hnone] at hparse
      cases hparse
    have hcalc : Bot.handleMessage w msg now =
        Bot.handleStateInput w msg "custom_duration" now := by
      unfold Bot.handleMessage
      rw [if_neg htext, hstate]
    rw [hcalc]
    unfold Bot.handleStateInput
    rw [if_pos rfl, hparse]
    dsimp only
    rw [if_neg (by omega : ¬ (n < 1 ∨ n > 480))]
    rw [grantAccess_userStates]

/-- C10 witness: concrete scenarios: account selection stores the step
under chat 5; a message from sender 7 into chat 5 (where the step is
stored) is treated as an unknown command and removes nothing; a
message from sender 5 into chat 5 observes the custom step and clears
it under the sender key. -/
theorem conversation_state_keying_witness :
    lookupKV (Bot.handleGrantAccess wChat5 "grant_kid" 5 1).w.bot.userStates
        5 = some "grant_duration" ∧
    Bot.handleMessage wChat5 ⟨7, 5, "30"⟩ 0 =
      ⟨wChat5, UiAction.unknownCommandMsg, none⟩ ∧
    lookupKV (Bot.handleMessage wChat5 ⟨7, 5, "30"⟩ 0).w.bot.userStates 5 =
      lookupKV wChat5.bot.userStates 5 ∧
    (Bot.handleMessage wChat5 ⟨5, 5, "30"⟩ 0).w.bot.userStates =
      eraseKV wChat5.bot.userStates 5 :=
  ⟨(conversation_state_keying.1 wChat5 "grant_kid" 5 1 (by decide)).1,
   conversation_state_keying.2.2.1 wChat5 ⟨7, 5, "30"⟩ 0 (by decide)
     (by decide),
   conversation_state_keying.2.2.2.1 wChat5 ⟨7, 5, "30"⟩ 0 5 (by decide),
   conversation_state_keying.2.2.2.2 wChat5 ⟨5, 5, "30"⟩ 0 30 (by decide)
     (by decide) (by decide) (by decide)⟩


end Parental
